import Mathlib

/-!
Verification of the social-pulse enrichment pipeline.

This file shallowly embeds the deterministic core of the repository:
the NLP scoring engine (`src/nlp/pipeline.py`: sentiment analysis,
topic/keyword extraction, viral prediction), the storage insert layer
(`src/database/models.py`: `insert_post` / `insert_posts_batch`), and
the stream-processing step (`src/kafka/consumer.py`:
`process_message` / `check_alerts` / the body of `run`).

Python floats are modelled as rationals, machine integers as `Int`/`Nat`.
External backends absent from the repository (the VADER lexicon scorer and
the spaCy entity model) are modelled as unavailable, which is exactly the
fallback path the source implements.  Wall-clock time (`datetime.now`) is
abstracted as explicit parameters (`age_hours`, processing time samples).
-/

/-! ## String utilities

Python whitespace semantics (`str.split()`, regex `\s`) and ASCII
lowercasing, over `List Char`. -/

/-- The six characters Python treats as whitespace (`\s`, `str.split()`). -/
def isPySpace (c : Char) : Bool :=
  c = ' ' || c = '\t' || c = '\n' || c = '\r' || c = '\x0b' || c = '\x0c'

/-- ASCII lowercase of a character list, as Python `str.lower()` on ASCII. -/
def lowerList (l : List Char) : List Char := l.map Char.toLower

/-- Accumulator-style worker for `splitWs`. -/
def splitWsAux : List Char → List Char → List (List Char)
  | [], acc => if acc.isEmpty then [] else [acc.reverse]
  | c :: rest, acc =>
    if isPySpace c then
      if acc.isEmpty then splitWsAux rest [] else acc.reverse :: splitWsAux rest []
    else
      splitWsAux rest (c :: acc)

/-- Python `str.split()` with no argument: split on whitespace runs,
discarding empty pieces. -/
def splitWs (l : List Char) : List (List Char) := splitWsAux l []

/-- Words of a string after lowercasing, i.e. Python `text.lower().split()`. -/
def lowerWords (s : String) : List String :=
  (splitWs (lowerList s.toList)).map String.mk

/-- Whether `needle` occurs as a contiguous substring of `haystack`
(Python `needle in haystack` on strings). -/
def substrB (needle : List Char) : List Char → Bool
  | [] => needle.isEmpty
  | c :: rest => needle.isPrefixOf (c :: rest) || substrB needle rest

/-- Whether some suffix of the list satisfies `f` (used to model
`re.search`, which tries every start position). -/
def anySuffix (f : List Char → Bool) : List Char → Bool
  | [] => f []
  | c :: rest => f (c :: rest) || anySuffix f rest

/-! ## SentimentAnalyzer (src/nlp/pipeline.py lines 39-94)

The VADER backend is an external dependency; the repository's fallback
path (`_fallback_sentiment`) is what is embedded. -/

namespace SentimentAnalyzer

/-- Fallback positive-word list (source lines 43-48). -/
def POSITIVE_WORDS : List String :=
  ["good", "great", "awesome", "amazing", "excellent", "love", "best",
   "happy", "wonderful", "fantastic", "beautiful", "perfect", "nice",
   "brilliant", "outstanding", "superb", "incredible", "exciting",
   "breakthrough", "innovative", "revolutionary", "success", "win"]

/-- Fallback negative-word list (source lines 50-55). -/
def NEGATIVE_WORDS : List String :=
  ["bad", "terrible", "awful", "horrible", "hate", "worst", "poor",
   "sad", "disappointing", "failure", "crash", "crisis", "disaster",
   "scam", "fraud", "broke", "dead", "dying", "killed", "threat",
   "dangerous", "toxic", "evil", "corrupt", "lawsuit", "fired"]

/-- Number of whitespace tokens of `text.lower()` in the positive set. -/
def pos_count (text : String) : Nat :=
  (lowerWords text).countP (fun w => POSITIVE_WORDS.contains w)

/-- Number of whitespace tokens of `text.lower()` in the negative set. -/
def neg_count (text : String) : Nat :=
  (lowerWords text).countP (fun w => NEGATIVE_WORDS.contains w)

/-- `_fallback_sentiment` (source lines 83-94): word-count polarity. -/
def fallback_sentiment (text : String) : ℚ :=
  let pos := pos_count text
  let neg := neg_count text
  let total := pos + neg
  if total = 0 then 0 else ((pos : ℚ) - (neg : ℚ)) / (total : ℚ)

/-- The fixed threshold bucketing applied to a compound score
(source lines 74-79). -/
def labelOf (compound : ℚ) : String :=
  if compound ≥ 1/20 then "positive"
  else if compound ≤ -(1/20) then "negative"
  else "neutral"

/-- `SentimentAnalyzer.analyze` (source lines 63-81), with the VADER
backend unavailable so the fallback scorer is used.  Empty text
short-circuits to `(0, "neutral")` (`if not text`). -/
def analyze (text : String) : ℚ × String :=
  if text = "" then (0, "neutral")
  else
    let compound := fallback_sentiment text
    (compound, labelOf compound)

end SentimentAnalyzer

/-! ## TopicExtractor (src/nlp/pipeline.py lines 97-179) -/

namespace TopicExtractor

/-- Topic taxonomy in declaration order (source lines 101-118):
topic name paired with its lowercase trigger phrases. -/
def TOPIC_PATTERNS : List (String × List String) :=
  [("AI/ML", ["ai", "artificial intelligence", "machine learning", "ml", "gpt",
              "chatgpt", "llm", "neural", "deep learning", "openai", "anthropic"]),
   ("Crypto", ["bitcoin", "btc", "ethereum", "eth", "crypto", "blockchain",
               "nft", "defi", "web3", "token", "coin"]),
   ("Finance", ["stock", "market", "invest", "trading", "fed", "inflation",
                "recession", "economy", "bank", "interest rate"]),
   ("Tech Industry", ["google", "apple", "microsoft", "amazon", "meta", "facebook",
                      "twitter", "startup", "layoff", "hiring", "ipo"]),
   ("Programming", ["python", "javascript", "rust", "golang", "react", "api",
                    "framework", "database", "cloud", "aws", "developer"]),
   ("Politics", ["election", "congress", "senate", "president", "democrat",
                 "republican", "vote", "policy", "government", "law"]),
   ("Science", ["research", "study", "scientist", "discovery", "nasa", "space",
                "climate", "physics", "biology", "medical"]),
   ("Gaming", ["game", "gaming", "playstation", "xbox", "nintendo", "steam",
               "esports", "gamer", "console", "pc gaming"])]

/-- Stopword set for keyword extraction (source lines 120-136). -/
def STOPWORDS : List String :=
  ["the", "a", "an", "is", "are", "was", "were", "be", "been", "being",
   "have", "has", "had", "do", "does", "did", "will", "would", "could",
   "should", "may", "might", "must", "shall", "can", "to", "of", "in",
   "for", "on", "with", "at", "by", "from", "as", "into", "through",
   "during", "before", "after", "above", "below", "between", "under",
   "again", "further", "then", "once", "here", "there", "when", "where",
   "why", "how", "all", "each", "few", "more", "most", "other", "some",
   "such", "no", "nor", "not", "only", "own", "same", "so", "than",
   "too", "very", "just", "and", "but", "if", "or", "because", "until",
   "while", "this", "that", "these", "those", "i", "you", "he", "she",
   "it", "we", "they", "what", "which", "who", "whom", "its", "his",
   "her", "their", "my", "your", "our", "about", "get", "got", "like",
   "know", "think", "make", "see", "look", "want", "give", "use", "find",
   "tell", "ask", "work", "seem", "feel", "try", "leave", "call", "http",
   "https", "www", "com", "org", "reddit", "deleted", "removed"]

/-- Whether some trigger phrase of a topic occurs in the lowered text
(`any(kw in text_lower for kw in keywords)`). -/
def topicMatches (textLower : List Char) (kws : List String) : Bool :=
  kws.any (fun kw => substrB kw.toList textLower)

/-- `extract_topics` (source lines 138-147): collect matching topics in
table order; fall back to `["General"]` when none match. -/
def extract_topics (text : String) : List String :=
  let textLower := lowerList text.toList
  let topics := TOPIC_PATTERNS.foldl
    (fun acc tk => if topicMatches textLower tk.2 then acc ++ [tk.1] else acc) []
  if topics.isEmpty then ["General"] else topics

/-- `re.sub(r'http\S+', '', text)` as a one-pass state machine:
`skipping = true` while inside a matched `http\S+` run (non-space
characters are dropped until whitespace, which is kept); otherwise a
literal `http` followed by one non-space character starts a match
(leftmost, with the greedy `\S+` run), and any other character is
kept.  Scanning resumes after each match, as `re.sub` does. -/
def stripUrlsGo : Bool → List Char → List Char
  | _, [] => []
  | true, c :: rest =>
    if isPySpace c then c :: stripUrlsGo false rest else stripUrlsGo true rest
  | false, 'h' :: 't' :: 't' :: 'p' :: d :: rest =>
    if isPySpace d then 'h' :: stripUrlsGo false ('t' :: 't' :: 'p' :: d :: rest)
    else stripUrlsGo true (d :: rest)
  | false, c :: rest => c :: stripUrlsGo false rest

/-- `re.sub(r'http\S+', '', text)`. -/
def stripUrls (l : List Char) : List Char := stripUrlsGo false l

/-- `re.sub(r'[^\w\s]', ' ', ·)`: replace every character that is neither
a word character (`[A-Za-z0-9_]`) nor whitespace by a space. -/
def cleanChar (c : Char) : Char :=
  if c.isAlphanum || c = '_' || isPySpace c then c else ' '

/-- The filtered token list of `extract_keywords`: strip URLs, lowercase,
replace punctuation by spaces, split on whitespace, and drop stopwords
and tokens of length ≤ 2 (source lines 151-156). -/
def keywordTokens (text : String) : List String :=
  let noUrl := stripUrls text.toList
  let cleaned := (lowerList noUrl).map cleanChar
  ((splitWs cleaned).map String.mk).filter
    (fun w => !STOPWORDS.contains w && w.length > 2)

/-- Keys of a `Counter` built from `ws`: distinct words in first-occurrence
order. -/
def firstOccKeys (ws : List String) : List String :=
  ws.foldl (fun acc w => if acc.contains w then acc else acc ++ [w]) []

/-- Insert into a count-descending list, keeping insertion-order stability
for equal counts (the element being inserted comes from earlier in the
original order, so it goes before equal-count entries). -/
def insertDesc (x : String × Nat) : List (String × Nat) → List (String × Nat)
  | [] => [x]
  | y :: ys => if y.2 > x.2 then y :: insertDesc x ys else x :: y :: ys

/-- Stable sort by descending count, as Python `Counter.most_common`
(equivalent to a stable `sorted(..., reverse=True)` on counts). -/
def sortDescByCount (l : List (String × Nat)) : List (String × Nat) :=
  l.foldr insertDesc []

/-- `Counter(words).most_common(top_n)` restricted to the word component:
count each distinct word, order by descending count with ties in
first-occurrence order, take the first `top_n`. -/
def most_common (ws : List String) (top_n : Nat) : List String :=
  (sortDescByCount ((firstOccKeys ws).map (fun w => (w, ws.count w)))).map
    Prod.fst |>.take top_n

/-- `extract_keywords` (source lines 149-160). -/
def extract_keywords (text : String) (top_n : Nat := 10) : List String :=
  most_common (keywordTokens text) top_n

/-- `extract_entities` (source lines 162-179): the spaCy backend is an
external dependency absent from the repository, so the guard
`if not SPACY_AVAILABLE` yields the empty list. -/
def extract_entities (_text : String) : List (String × String) := []

end TopicExtractor

/-! ## ViralPredictor (src/nlp/pipeline.py lines 182-264) -/

namespace ViralPredictor

/-- Engagement-word set (source lines 197-200). -/
def ENGAGEMENT_WORDS : List String :=
  ["you", "your", "free", "new", "now", "how", "why", "best",
   "top", "first", "exclusive", "limited", "easy", "simple"]

/-- Whether any of the given literal phrases occurs in the text
(the alternation regexes of `VIRAL_PATTERNS` under `re.search`). -/
def containsAny (phrases : List String) (l : List Char) : Bool :=
  phrases.any (fun w => substrB w.toList l)

/-- Regex `\?$`: a question mark at the end of the string (Python `$`
also matches just before one trailing newline). -/
def patQuestion (l : List Char) : Bool :=
  List.isSuffixOf ['?'] l || List.isSuffixOf ['?', '\n'] l

/-- Regex `^(how|why|what|when|where)`: explainer-style opener. -/
def patOpener (l : List Char) : Bool :=
  ["how", "why", "what", "when", "where"].any
    (fun w => w.toList.isPrefixOf l)

/-- The clickbait phrase of source line 192, containing an apostrophe. -/
def wontBelieve : String :=
  "you won" ++ String.singleton (Char.ofNat 39) ++ "t believe"

/-- Regex `\d+\s*(tips|ways|reasons)` tested at one start position:
a digit, then the maximal digit run, optional whitespace, then one of
the listicle words.  Backtracking cannot produce further matches here
because neither whitespace nor the listicle words start with a digit. -/
def listicleAt (l : List Char) : Bool :=
  match l with
  | [] => false
  | c :: _ =>
    c.isDigit &&
      (["tips", "ways", "reasons"].any (fun w =>
        w.toList.isPrefixOf ((l.dropWhile Char.isDigit).dropWhile isPySpace)))

/-- Regex `\d+\s*(tips|ways|reasons)` under `re.search`. -/
def patListicle (l : List Char) : Bool := anySuffix listicleAt l

/-- Number of the eight `VIRAL_PATTERNS` regexes (source lines 186-195)
matching the lowercased title (`sum(1 for p in ... if re.search(p, title.lower()))`). -/
def pattern_count (titleLower : List Char) : Nat :=
  (if patQuestion titleLower then 1 else 0) +
  (if patOpener titleLower then 1 else 0) +
  (if containsAny ["breaking", "just in", "update"] titleLower then 1 else 0) +
  (if containsAny ["first", "new", "latest", "launch"] titleLower then 1 else 0) +
  (if containsAny ["secret", "hidden", "revealed"] titleLower then 1 else 0) +
  (if containsAny [wontBelieve, "amazing"] titleLower then 1 else 0) +
  (if patListicle titleLower then 1 else 0) +
  (if containsAny ["ask me anything", "ama"] titleLower then 1 else 0)

/-- The six feature values appended to `features` in `predict`
(source lines 206-251), in order. -/
def features (title body : String) (score num_comments : ℤ)
    (age_hours : ℚ) : List ℚ :=
  let titleLower := lowerList title.toList
  let text := lowerList (title ++ " " ++ body).toList
  let words := (splitWs text).map String.mk
  let eng_count := words.countP (fun w => ENGAGEMENT_WORDS.contains w)
  let title_len := title.length
  [min ((pattern_count titleLower : ℚ) / 3) 1,
   min ((eng_count : ℚ) / 5) 1,
   if 60 ≤ title_len ∧ title_len ≤ 100 then 1
   else if 40 ≤ title_len ∧ title_len ≤ 120 then 7/10
   else 3/10,
   if 0 < age_hours then min ((score : ℚ) / age_hours / 50) 1 else 1/2,
   if 0 < score then min ((num_comments : ℚ) / (score : ℚ) * 2) 1 else 1/2,
   if 1000 < score then 1
   else if 100 < score then 7/10
   else if 10 < score then 2/5
   else 1/5]

/-- `ViralPredictor.predict` (source lines 202-264): mean of the six
features, plus the coarse engagement label. -/
def predict (title body : String) (score num_comments : ℤ)
    (age_hours : ℚ) : ℚ × String :=
  let fs := features title body score num_comments age_hours
  let viral_score := fs.sum / (fs.length : ℚ)
  (viral_score,
   if viral_score ≥ 7/10 then "high"
   else if viral_score ≥ 2/5 then "medium"
   else "low")

end ViralPredictor

/-! ## NLPPipeline (src/nlp/pipeline.py lines 267-316) -/

/-- Round to the nearest integer, halves to even (Python `round`). -/
def roundHalfEven (q : ℚ) : ℤ :=
  let f := ⌊q⌋
  let frac := q - (f : ℚ)
  if frac < 1/2 then f
  else if 1/2 < frac then f + 1
  else if f % 2 = 0 then f else f + 1

/-- Python `round(x, 3)`. -/
def round3 (q : ℚ) : ℚ := (roundHalfEven (q * 1000) : ℚ) / 1000

/-- The `NLPResult` dataclass (source lines 28-36). -/
structure NLPResult where
  sentiment_score : ℚ
  sentiment_label : String
  topics : List String
  entities : List (String × String)
  keywords : List String
  viral_score : ℚ
  engagement_prediction : String
deriving DecidableEq

namespace NLPPipeline

/-- `NLPPipeline.analyze` (source lines 275-302): run all sub-analyses on
`f"{title} {body}"` (viral prediction keeps title and body separate) and
assemble the result, rounding both scores to 3 decimal digits. -/
def analyze (title : String) (body : String := "") (score : ℤ := 0)
    (num_comments : ℤ := 0) (age_hours : ℚ := 1) : NLPResult :=
  let text := title ++ " " ++ body
  let sentiment := SentimentAnalyzer.analyze text
  let topics := TopicExtractor.extract_topics text
  let keywords := TopicExtractor.extract_keywords text
  let entities := TopicExtractor.extract_entities text
  let viral := ViralPredictor.predict title body score num_comments age_hours
  { sentiment_score := round3 sentiment.1,
    sentiment_label := sentiment.2,
    topics := topics,
    entities := entities,
    keywords := keywords,
    viral_score := round3 viral.1,
    engagement_prediction := viral.2 }

end NLPPipeline

/-! ## Processed records and alerts (src/kafka/consumer.py) -/

/-- A parsed inbound JSON payload (`json.loads` result), with every field
optional: the source reads each one with `value.get(...)` and a default,
so no field is required.  `created_utc` is abstracted away: the source
turns it into `age_hours` via the wall clock, which the embedding takes
as an explicit parameter. -/
structure RawValue where
  source : Option String := none
  id : Option String := none
  title : Option String := none
  body : Option String := none
  text : Option String := none
  score : Option ℤ := none
  num_comments : Option ℤ := none
  url : Option String := none
  author : Option String := none
  upvote_ratio : Option ℚ := none
  subreddit : Option String := none
  story_type : Option String := none
deriving DecidableEq

/-- The processed-post dict built by `process_message`
(src/kafka/consumer.py lines 97-118), minus the two wall-clock
timestamps. -/
structure Processed where
  external_id : String
  source : String
  title : String
  body : String
  url : String
  author : String
  score : ℤ
  num_comments : ℤ
  upvote_ratio : Option ℚ
  subreddit : Option String
  story_type : Option String
  sentiment_score : ℚ
  sentiment_label : String
  topics : List String
  keywords : List String
  entities : List (String × String)
  viral_score : ℚ
  engagement_prediction : String
deriving DecidableEq

/-- An alert payload published by `check_alerts`
(src/kafka/consumer.py lines 134-154). -/
inductive AlertEvent where
  | viral (title : String) (viral_score : ℚ) (source url : String)
  | sentimentSpike (title : String) (sentiment : ℚ) (label source : String)
deriving DecidableEq

/-- The `type` field of an alert payload. -/
def AlertEvent.alertType : AlertEvent → String
  | .viral .. => "viral"
  | .sentimentSpike .. => "sentiment_spike"

/-! ## Database (src/database/models.py lines 139-156)

The session's post table is modelled as the list of stored rows in
insertion order; only `external_id` is consulted by the insert path. -/

namespace Database

/-- `insert_post` (source lines 139-147): look up the row with the same
`external_id`; on a hit return `None` leaving the table unchanged,
otherwise add the row and return it. -/
def insert_post (session : List Processed) (p : Processed) :
    Option Processed × List Processed :=
  match session.find? (fun q => q.external_id == p.external_id) with
  | some _ => (none, session)
  | none => (some p, session ++ [p])

/-- `insert_posts_batch` (source lines 149-156): insert each record in
one session, counting only the ones actually inserted. -/
def insert_posts_batch (session : List Processed) (ps : List Processed) :
    Nat × List Processed :=
  ps.foldl
    (fun acc p =>
      let r := insert_post acc.2 p
      (if r.1.isSome then acc.1 + 1 else acc.1, r.2))
    (0, session)

end Database

/-! ## StreamProcessor (src/kafka/consumer.py lines 28-213) -/

namespace StreamProcessor

/-- The successful body of `process_message` (source lines 66-120):
read every field with its `value.get` default, derive `external_id` as
`f"{source}_{value.get('id', '')}"`, run the NLP pipeline, and build the
processed dict.  `age_hours` abstracts the wall-clock computation of
source lines 76-85. -/
def build_processed (v : RawValue) (age_hours : ℚ) : Processed :=
  let source := v.source.getD "unknown"
  let title := v.title.getD ""
  let body := v.body.getD (v.text.getD "")
  let score := v.score.getD 0
  let num_comments := v.num_comments.getD 0
  let r := NLPPipeline.analyze title body score num_comments age_hours
  { external_id := source ++ "_" ++ v.id.getD "",
    source := source,
    title := title,
    body := body,
    url := v.url.getD "",
    author := v.author.getD "",
    score := score,
    num_comments := num_comments,
    upvote_ratio := v.upvote_ratio,
    subreddit := v.subreddit,
    story_type := v.story_type,
    sentiment_score := r.sentiment_score,
    sentiment_label := r.sentiment_label,
    topics := r.topics,
    keywords := r.keywords,
    entities := r.entities,
    viral_score := r.viral_score,
    engagement_prediction := r.engagement_prediction }

/-- `check_alerts` (source lines 134-154): the two threshold checks are
independent; a viral alert is emitted first when `viral_score ≥ 0.8`,
then a sentiment-spike alert when `|sentiment_score| ≥ 0.8`. -/
def check_alerts (p : Processed) : List AlertEvent :=
  (if p.viral_score ≥ 4/5 then
    [AlertEvent.viral (p.title.take 100) p.viral_score p.source p.url]
   else []) ++
  (if |p.sentiment_score| ≥ 4/5 then
    [AlertEvent.sentimentSpike (p.title.take 100) p.sentiment_score
      p.sentiment_label p.source]
   else [])

/-- The mutable state of one `StreamProcessor` instance: the metrics
counters (source lines 45-54) together with the observable effects on
its collaborators (stored rows, republished records, emitted alerts). -/
structure ProcState where
  processed_count : Nat
  error_count : Nat
  avg_processing_time : ℚ
  stored : List Processed
  published : List Processed
  alerts : List AlertEvent
deriving DecidableEq

/-- One iteration of the `run` loop on a polled record
(source lines 176-201).  `raw = none` is a record whose payload failed
to decode: `process_message` catches the exception, increments
`error_count` and returns `None`, so the `if processed:` block is
skipped.  `raw = some v` is a successfully parsed payload: the record is
stored (`store_post` delegates to `insert_posts_batch([processed])`),
republished, alert-checked, and the metrics are updated with the new
count `n` and the running mean
`(avg * (n - 1) + proc_time) / n`. -/
def runStep (st : ProcState) (raw : Option RawValue)
    (age_hours proc_time : ℚ) : ProcState :=
  match raw with
  | none => { st with error_count := st.error_count + 1 }
  | some v =>
    let p := build_processed v age_hours
    let stored := (Database.insert_posts_batch st.stored [p]).2
    let n := st.processed_count + 1
    { processed_count := n,
      error_count := st.error_count,
      avg_processing_time :=
        (st.avg_processing_time * ((n : ℚ) - 1) + proc_time) / (n : ℚ),
      stored := stored,
      published := st.published ++ [p],
      alerts := st.alerts ++ check_alerts p }

end StreamProcessor

/-! ## Concrete inputs used by counterexamples and witnesses -/

/-- 53 positive fallback words followed by 48 negative ones: the
fallback polarity is `5/101 ≈ 0.0495`, just below the positive
threshold, but rounding to 3 decimals lands exactly on `0.05`. -/
def goodbadText : String :=
  String.join (List.replicate 53 "good ") ++ String.join (List.replicate 48 "bad ")

/-- An enriched record carrying the given viral and sentiment scores
(the other fields are irrelevant to the alert policy). -/
def mkRecord (vs ss : ℚ) : Processed :=
  { external_id := "src_1", source := "src", title := "a title", body := "",
    url := "u", author := "a", score := 0, num_comments := 0,
    upvote_ratio := none, subreddit := none, story_type := none,
    sentiment_score := ss, sentiment_label := "neutral",
    topics := ["General"], keywords := [], entities := [],
    viral_score := vs, engagement_prediction := "low" }

/-- An inbound payload with a source but no `id` field. -/
def exV1 : RawValue := { source := some "reddit", title := some "hello" }

/-- A second id-less inbound payload from the same source. -/
def exV2 : RawValue := { source := some "reddit", title := some "world" }

/-- A fresh processor state (all counters zero, no effects yet). -/
def initState : StreamProcessor.ProcState :=
  { processed_count := 0, error_count := 0, avg_processing_time := 0,
    stored := [], published := [], alerts := [] }

/-! ## Helper lemmas -/

/-- The mean of a nonempty list of rationals that all lie in `[0,1]`
lies in `[0,1]`. -/
lemma mean_mem_unit (l : List ℚ) (hne : l ≠ [])
    (h : ∀ x ∈ l, 0 ≤ x ∧ x ≤ 1) :
    0 ≤ l.sum / (l.length : ℚ) ∧ l.sum / (l.length : ℚ) ≤ 1 := by
  have h0 : 0 ≤ l.sum := List.sum_nonneg (fun x hx => (h x hx).1)
  have h1 : l.sum ≤ (l.length : ℚ) := by
    have := List.sum_le_card_nsmul l 1 (fun x hx => (h x hx).2)
    simpa using this
  have hlpos : 0 < (l.length : ℚ) := by
    exact_mod_cast List.length_pos.mpr hne
  exact ⟨div_nonneg h0 hlpos.le, by rw [div_le_one hlpos]; exact h1⟩

/-- Accumulating fold of `extract_topics` equals the filtered table
(projected to names), in declaration order. -/
lemma foldl_topics_eq (l : List (String × List String)) (tl : List Char)
    (init : List String) :
    l.foldl (fun acc tk =>
        if TopicExtractor.topicMatches tl tk.2 then acc ++ [tk.1] else acc) init
      = init ++ (l.filter
          (fun tk => TopicExtractor.topicMatches tl tk.2)).map Prod.fst := by
  induction l generalizing init with
  | nil => simp
  | cons hd rest ih =>
    by_cases h : TopicExtractor.topicMatches tl hd.2 <;>
      simp [List.filter_cons, h, ih]

/-- The sentiment label returned by `SentimentAnalyzer.analyze` is the
threshold bucketing of the (unrounded) score it returns. -/
lemma analyze_snd_eq_labelOf (text : String) :
    (SentimentAnalyzer.analyze text).2 =
      SentimentAnalyzer.labelOf (SentimentAnalyzer.analyze text).1 := by
  unfold SentimentAnalyzer.analyze
  by_cases h : text = "" <;> simp [h]
  norm_num [SentimentAnalyzer.labelOf]

/-- Splitting a list of whitespace characters yields no tokens. -/
lemma splitWsAux_all_space (l : List Char) (h : ∀ c ∈ l, isPySpace c) :
    splitWsAux l [] = [] := by
  induction l with
  | nil => rfl
  | cons c rest ih =>
    have hc : isPySpace c := h c (by simp)
    simp [splitWsAux, hc]
    exact ih (fun d hd => h d (by simp [hd]))

/-- ASCII lowercasing maps whitespace to itself. -/
lemma isPySpace_toLower {c : Char} (h : isPySpace c) : isPySpace c.toLower := by
  simp [isPySpace] at h ⊢
  rcases h with ((((h | h) | h) | h) | h) | h <;> subst h <;> decide

/-! ## Claim theorems -/

/-- C2 (counterexample): on input "ai ai ml ml ai" with top_n = 2,
`extract_keywords` does not return `["ai", "ml"]` — both tokens have
length 2 and the filter discards tokens of length ≤ 2. -/
theorem C2_counterexample :
    TopicExtractor.extract_keywords "ai ai ml ml ai" 2 ≠ ["ai", "ml"] := by
  decide

/-- C2 (amended): on "ai ai ml ml ai" with top_n = 2 the result is `[]`,
because "ai" and "ml" have length 2 and tokens of length ≤ 2 are
discarded; on tokens longer than 2 characters the top-2 are ordered by
descending frequency ("foo foo bar bar foo") and equal-frequency ties
break by first-occurrence order ("aaa bbb aaa bbb"). -/
theorem C2_amended :
    TopicExtractor.extract_keywords "ai ai ml ml ai" 2 = [] ∧
    TopicExtractor.extract_keywords "aaa bbb aaa bbb" 2 = ["aaa", "bbb"] ∧
    TopicExtractor.extract_keywords "foo foo bar bar foo" 2 = ["foo", "bar"] := by
  decide

/-- C6: a malformed polled record (undecodable payload, `raw = none`)
increments `error_count` by one and changes nothing else: no store, no
republish, no alert, and `processed_count` and the latency average are
untouched; `runStep` is total, so the loop continues. -/
theorem C6_malformed_record (st : StreamProcessor.ProcState)
    (age_hours proc_time : ℚ) :
    (StreamProcessor.runStep st none age_hours proc_time).error_count
        = st.error_count + 1 ∧
    (StreamProcessor.runStep st none age_hours proc_time).processed_count
        = st.processed_count ∧
    (StreamProcessor.runStep st none age_hours proc_time).avg_processing_time
        = st.avg_processing_time ∧
    (StreamProcessor.runStep st none age_hours proc_time).stored = st.stored ∧
    (StreamProcessor.runStep st none age_hours proc_time).published = st.published ∧
    (StreamProcessor.runStep st none age_hours proc_time).alerts = st.alerts :=
  ⟨rfl, rfl, rfl, rfl, rfl, rfl⟩

/-- C7: on a successfully enriched record, `processed_count` increments
by one and the latency average is recomputed as
`(old_avg * (n - 1) + sample) / n` with `n` the new count, alongside the
store, republish and alert side effects; and on a failed record (the
`none` case) none of these side effects happen. -/
theorem C7_metrics_update (st : StreamProcessor.ProcState) (v : RawValue)
    (age_hours proc_time : ℚ) :
    (StreamProcessor.runStep st (some v) age_hours proc_time).processed_count
        = st.processed_count + 1 ∧
    (StreamProcessor.runStep st (some v) age_hours proc_time).avg_processing_time
        = (st.avg_processing_time * (((st.processed_count + 1 : ℕ) : ℚ) - 1)
            + proc_time) / ((st.processed_count + 1 : ℕ) : ℚ) ∧
    (StreamProcessor.runStep st (some v) age_hours proc_time).error_count
        = st.error_count ∧
    (StreamProcessor.runStep st (some v) age_hours proc_time).stored
        = (Database.insert_posts_batch st.stored
            [StreamProcessor.build_processed v age_hours]).2 ∧
    (StreamProcessor.runStep st (some v) age_hours proc_time).published
        = st.published ++ [StreamProcessor.build_processed v age_hours] ∧
    (StreamProcessor.runStep st (some v) age_hours proc_time).alerts
        = st.alerts ++ StreamProcessor.check_alerts
            (StreamProcessor.build_processed v age_hours) ∧
    (StreamProcessor.runStep st none age_hours proc_time).processed_count
        = st.processed_count ∧
    (StreamProcessor.runStep st none age_hours proc_time).avg_processing_time
        = st.avg_processing_time ∧
    (StreamProcessor.runStep st none age_hours proc_time).stored = st.stored ∧
    (StreamProcessor.runStep st none age_hours proc_time).published = st.published ∧
    (StreamProcessor.runStep st none age_hours proc_time).alerts = st.alerts :=
  ⟨rfl, rfl, rfl, rfl, rfl, rfl, rfl, rfl, rfl, rfl, rfl⟩

/-- C8: `extract_topics` returns exactly the topics whose trigger
phrases occur in the lowercased text, in the table's declaration order
(the filtered table projected to names), falling back to `["General"]`
when no topic matches; the result is never empty. -/
theorem C8_topics_exact (text : String) :
    TopicExtractor.extract_topics text =
      (if (TopicExtractor.TOPIC_PATTERNS.filter
            (fun tk => TopicExtractor.topicMatches (lowerList text.toList) tk.2)).map
            Prod.fst = []
       then ["General"]
       else (TopicExtractor.TOPIC_PATTERNS.filter
            (fun tk => TopicExtractor.topicMatches (lowerList text.toList) tk.2)).map
            Prod.fst) ∧
    TopicExtractor.extract_topics text ≠ [] := by
  have h := foldl_topics_eq TopicExtractor.TOPIC_PATTERNS (lowerList text.toList) []
  unfold TopicExtractor.extract_topics
  simp only [h, List.nil_append, List.isEmpty_iff]
  refine ⟨trivial, ?_⟩
  split_ifs with hc
  · simp
  · simpa using hc

/-- C5: `external_id` is the uniqueness key of the post store: inserting
a post whose `external_id` is already present is a no-op that reports
not-inserted, and batch-inserting the same record twice into a store
that does not yet contain it stores it exactly once and counts one
insert. -/
theorem C5_storage_idempotent (st : List Processed) (p : Processed) :
    ((∃ q ∈ st, q.external_id = p.external_id) →
      Database.insert_post st p = (none, st)) ∧
    ((∀ q ∈ st, q.external_id ≠ p.external_id) →
      Database.insert_posts_batch st [p, p] = (1, st ++ [p])) := by
  constructor
  · rintro ⟨q, hq, he⟩
    have hs : (st.find? (fun r => r.external_id == p.external_id)).isSome := by
      rw [List.find?_isSome]
      exact ⟨q, hq, by simp [he]⟩
    obtain ⟨r, hr⟩ := Option.isSome_iff_exists.mp hs
    unfold Database.insert_post
    rw [hr]
  · intro hnone
    have h1 : st.find? (fun r => r.external_id == p.external_id) = none := by
      rw [List.find?_eq_none]
      intro x hx
      simp [hnone x hx]
    have h2 : (st ++ [p]).find? (fun r => r.external_id == p.external_id)
        = some p := by
      rw [List.find?_append, h1]
      simp
    simp [Database.insert_posts_batch, Database.insert_post, h1, h2]

/-- C5 witness: a concrete collision is a no-op reporting not-inserted,
and a concrete duplicate pair stores exactly one entity. -/
theorem C5_storage_idempotent_witness :
    Database.insert_post [mkRecord 0 0] (mkRecord 0 0) = (none, [mkRecord 0 0]) ∧
    Database.insert_posts_batch [] [mkRecord 0 0, mkRecord 0 0]
      = (1, [] ++ [mkRecord 0 0]) :=
  ⟨(C5_storage_idempotent [mkRecord 0 0] (mkRecord 0 0)).1
      ⟨mkRecord 0 0, by simp, rfl⟩,
   (C5_storage_idempotent [] (mkRecord 0 0)).2 (by simp)⟩

/-- C4: `check_alerts` emits a viral alert iff `viral_score ≥ 0.8` and a
sentiment-spike alert iff `|sentiment_score| ≥ 0.8`; the two conditions
are independent so a record emits zero, one, or two alerts, as the three
concrete records of the spec illustrate. -/
theorem C4_alert_policy (p : Processed) :
    ((∃ a ∈ StreamProcessor.check_alerts p, a.alertType = "viral")
        ↔ 4/5 ≤ p.viral_score) ∧
    ((∃ a ∈ StreamProcessor.check_alerts p, a.alertType = "sentiment_spike")
        ↔ 4/5 ≤ |p.sentiment_score|) ∧
    (StreamProcessor.check_alerts p).length
        = (if 4/5 ≤ p.viral_score then 1 else 0)
          + (if 4/5 ≤ |p.sentiment_score| then 1 else 0) ∧
    (StreamProcessor.check_alerts (mkRecord (81/100) (1/5))).map
        AlertEvent.alertType = ["viral"] ∧
    (StreamProcessor.check_alerts (mkRecord (1/2) (-(9/10)))).map
        AlertEvent.alertType = ["sentiment_spike"] ∧
    (StreamProcessor.check_alerts (mkRecord (9/10) (9/10))).map
        AlertEvent.alertType = ["viral", "sentiment_spike"] := by
  refine ⟨?_, ?_, ?_, ?_, ?_, ?_⟩
  · by_cases h1 : (4:ℚ)/5 ≤ p.viral_score <;>
      by_cases h2 : (4:ℚ)/5 ≤ |p.sentiment_score| <;>
      simp [StreamProcessor.check_alerts, AlertEvent.alertType, h1, h2, ge_iff_le]
  · by_cases h1 : (4:ℚ)/5 ≤ p.viral_score <;>
      by_cases h2 : (4:ℚ)/5 ≤ |p.sentiment_score| <;>
      simp [StreamProcessor.check_alerts, AlertEvent.alertType, h1, h2, ge_iff_le]
  · by_cases h1 : (4:ℚ)/5 ≤ p.viral_score <;>
      by_cases h2 : (4:ℚ)/5 ≤ |p.sentiment_score| <;>
      simp [StreamProcessor.check_alerts, h1, h2, ge_iff_le]
  · have h5 : |(1:ℚ)/5| = 1/5 := abs_of_nonneg (by norm_num)
    norm_num [StreamProcessor.check_alerts, mkRecord, AlertEvent.alertType, h5]
  · have h9 : |(9:ℚ)/10| = 9/10 := abs_of_nonneg (by norm_num)
    norm_num [StreamProcessor.check_alerts, mkRecord, AlertEvent.alertType, h9]
  · have h9 : |(9:ℚ)/10| = 9/10 := abs_of_nonneg (by norm_num)
    norm_num [StreamProcessor.check_alerts, mkRecord, AlertEvent.alertType, h9]

/-- C1 (counterexample): the features and the viral score are NOT always
in [0,1]: with title="", body="", score=-100, num_comments=0,
age_hours=1 the early-velocity feature is `min(-100/1/50, 1) = -2` (the
clamp is one-sided) and the returned viral score is -1/6 < 0. -/
theorem C1_counterexample :
    ¬ (0 ≤ (ViralPredictor.predict "" "" (-100) 0 1).1 ∧
       (ViralPredictor.predict "" "" (-100) 0 1).1 ≤ 1) := by
  have hp : ViralPredictor.pattern_count (lowerList ("" : String).toList) = 0 := by
    decide
  have he : ((splitWs (lowerList ("" ++ " " ++ "" : String).toList)).map
      String.mk).countP (fun w => ViralPredictor.ENGAGEMENT_WORDS.contains w)
      = 0 := by decide
  have hl : ("" : String).length = 0 := rfl
  have hfeat : ViralPredictor.features "" "" (-100) 0 1
      = [0, 0, 3/10, -2, 1/2, 1/5] := by
    simp only [ViralPredictor.features, hp, he, hl]
    norm_num [min_def]
  have h1 : (ViralPredictor.predict "" "" (-100) 0 1).1 = -(1/6) := by
    show (ViralPredictor.features "" "" (-100) 0 1).sum /
        ((ViralPredictor.features "" "" (-100) 0 1).length : ℚ) = -(1/6)
    rw [hfeat]
    norm_num
  rw [h1]
  norm_num

/-- C1 (amended): for nonnegative `score` and `num_comments` (and any
title, body and age), each of the six features lies in [0,1] and so
does the returned viral score, their arithmetic mean. -/
theorem C1_amended (title body : String) (score num_comments : ℤ)
    (age_hours : ℚ) (hs : 0 ≤ score) (hc : 0 ≤ num_comments) :
    (∀ f ∈ ViralPredictor.features title body score num_comments age_hours,
        0 ≤ f ∧ f ≤ 1) ∧
    0 ≤ (ViralPredictor.predict title body score num_comments age_hours).1 ∧
    (ViralPredictor.predict title body score num_comments age_hours).1 ≤ 1 := by
  have hf : ∀ f ∈ ViralPredictor.features title body score num_comments age_hours,
      0 ≤ f ∧ f ≤ 1 := by
    intro f hmem
    simp only [ViralPredictor.features, List.mem_cons, List.not_mem_nil,
      or_false] at hmem
    rcases hmem with rfl | rfl | rfl | rfl | rfl | rfl
    · exact ⟨le_min (by positivity) zero_le_one, min_le_right _ _⟩
    · exact ⟨le_min (by positivity) zero_le_one, min_le_right _ _⟩
    · split_ifs <;> norm_num
    · split_ifs with h
      · have h0 : (0:ℚ) ≤ (score : ℚ) := by exact_mod_cast hs
        exact ⟨le_min (div_nonneg (div_nonneg h0 h.le) (by norm_num))
          zero_le_one, min_le_right _ _⟩
      · norm_num
    · split_ifs with h
      · have h0 : (0:ℚ) < (score : ℚ) := by exact_mod_cast h
        have h1 : (0:ℚ) ≤ (num_comments : ℚ) := by exact_mod_cast hc
        exact ⟨le_min (mul_nonneg (div_nonneg h1 h0.le) (by norm_num))
          zero_le_one, min_le_right _ _⟩
      · norm_num
    · split_ifs <;> norm_num
  refine ⟨hf, ?_⟩
  have hne : ViralPredictor.features title body score num_comments age_hours
      ≠ [] := by
    simp [ViralPredictor.features]
  exact mean_mem_unit _ hne hf

/-- C1 witness: the amended range theorem applied to the spec's concrete
example (score 150, 45 comments, age 12 hours). -/
theorem C1_amended_witness :
    (∀ f ∈ ViralPredictor.features "How I learned Python in 30 days"
        "Here are my tips for learning programming quickly." 150 45 12,
        0 ≤ f ∧ f ≤ 1) ∧
    0 ≤ (ViralPredictor.predict "How I learned Python in 30 days"
        "Here are my tips for learning programming quickly." 150 45 12).1 ∧
    (ViralPredictor.predict "How I learned Python in 30 days"
        "Here are my tips for learning programming quickly." 150 45 12).1 ≤ 1 :=
  C1_amended _ _ 150 45 12 (by norm_num) (by norm_num)

/-- C3 (counterexample): the returned `sentiment_score` is rounded to 3
decimals and the rounding can cross the 0.05 threshold the label was
computed from: 53 positive and 48 negative fallback words give compound
5/101 ≈ 0.0495 (label "neutral"), returned as 0.050, which the
thresholds map to "positive". -/
theorem C3_counterexample :
    (NLPPipeline.analyze goodbadText "" 0 0 1).sentiment_label ≠
      SentimentAnalyzer.labelOf
        ((NLPPipeline.analyze goodbadText "" 0 0 1).sentiment_score) := by
  have hp : SentimentAnalyzer.pos_count (goodbadText ++ " " ++ "") = 53 := by
    decide
  have hn : SentimentAnalyzer.neg_count (goodbadText ++ " " ++ "") = 48 := by
    decide
  have hne : (goodbadText ++ " " ++ "") ≠ "" := by decide
  have hfb : SentimentAnalyzer.fallback_sentiment (goodbadText ++ " " ++ "")
      = 5/101 := by
    unfold SentimentAnalyzer.fallback_sentiment
    simp only [hp, hn]
    norm_num
  have han : SentimentAnalyzer.analyze (goodbadText ++ " " ++ "")
      = (5/101, "neutral") := by
    unfold SentimentAnalyzer.analyze
    rw [if_neg hne]
    simp only [hfb]
    norm_num [SentimentAnalyzer.labelOf, Prod.ext_iff]
  have hsl : (NLPPipeline.analyze goodbadText "" 0 0 1).sentiment_label
      = "neutral" := by
    show (SentimentAnalyzer.analyze (goodbadText ++ " " ++ "")).2 = "neutral"
    rw [han]
  have hsc : (NLPPipeline.analyze goodbadText "" 0 0 1).sentiment_score
      = round3 (5/101) := by
    show round3 (SentimentAnalyzer.analyze (goodbadText ++ " " ++ "")).1
      = round3 (5/101)
    rw [han]
  have hr3 : round3 (5/101 : ℚ) = 1/20 := by
    have hfl : ⌊(5/101 : ℚ) * 1000⌋ = 49 := by
      rw [Int.floor_eq_iff]
      norm_num
    unfold round3 roundHalfEven
    rw [hfl]
    norm_num
  rw [hsl, hsc, hr3]
  norm_num [SentimentAnalyzer.labelOf]
  decide

/-- C3 (amended): the returned label equals the thresholds applied to
the pre-rounding sentiment score; the returned score is its 3-decimal
rounding. -/
theorem C3_amended (title body : String) (score num_comments : ℤ)
    (age_hours : ℚ) :
    (NLPPipeline.analyze title body score num_comments age_hours).sentiment_label
      = SentimentAnalyzer.labelOf
          (SentimentAnalyzer.analyze (title ++ " " ++ body)).1 ∧
    (NLPPipeline.analyze title body score num_comments age_hours).sentiment_score
      = round3 (SentimentAnalyzer.analyze (title ++ " " ++ body)).1 := by
  constructor
  · show (SentimentAnalyzer.analyze (title ++ " " ++ body)).2 = _
    exact analyze_snd_eq_labelOf _
  · rfl

/-- C9: with the lexicon engine unavailable, `analyze` returns
`(pos - neg)/(pos + neg)` over the whitespace tokens of the lowercased
text, `0.0` when no sentiment word occurs, and `(0.0, "neutral")` on
every empty or whitespace-only text. -/
theorem C9_fallback_scoring (text : String) :
    (SentimentAnalyzer.pos_count text + SentimentAnalyzer.neg_count text = 0 →
      SentimentAnalyzer.analyze text = (0, "neutral")) ∧
    (SentimentAnalyzer.pos_count text + SentimentAnalyzer.neg_count text ≠ 0 →
      (SentimentAnalyzer.analyze text).1 =
        ((SentimentAnalyzer.pos_count text : ℚ)
            - (SentimentAnalyzer.neg_count text : ℚ)) /
          ((SentimentAnalyzer.pos_count text
            + SentimentAnalyzer.neg_count text : ℕ) : ℚ)) ∧
    ((∀ c ∈ text.toList, isPySpace c) →
      SentimentAnalyzer.analyze text = (0, "neutral")) := by
  have key : SentimentAnalyzer.pos_count text + SentimentAnalyzer.neg_count text = 0 →
      SentimentAnalyzer.analyze text = (0, "neutral") := by
    intro h
    unfold SentimentAnalyzer.analyze
    by_cases ht : text = ""
    · simp [ht]
    · simp only [ht, if_false]
      unfold SentimentAnalyzer.fallback_sentiment
      simp only [h, if_pos rfl]
      norm_num [SentimentAnalyzer.labelOf, Prod.ext_iff]
  refine ⟨key, ?_, ?_⟩
  · intro h
    have ht : text ≠ "" := by
      intro h0
      subst h0
      exact h (by decide)
    unfold SentimentAnalyzer.analyze
    simp only [ht, if_false]
    unfold SentimentAnalyzer.fallback_sentiment
    simp only [h, if_neg h]
    push_cast
    ring
  · intro h
    apply key
    have hw : lowerWords text = [] := by
      unfold lowerWords splitWs
      rw [splitWsAux_all_space]
      · rfl
      · intro c hc
        obtain ⟨d, hd, rfl⟩ := List.mem_map.mp hc
        exact isPySpace_toLower (h d hd)
    unfold SentimentAnalyzer.pos_count SentimentAnalyzer.neg_count
    rw [hw]
    rfl

/-- C9 witness: a whitespace-only text yields (0, "neutral"), and a text
with one positive and two negative words scores (1-2)/3. -/
theorem C9_fallback_scoring_witness :
    SentimentAnalyzer.analyze "   " = (0, "neutral") ∧
    (SentimentAnalyzer.analyze "good bad bad").1 =
      ((SentimentAnalyzer.pos_count "good bad bad" : ℚ)
          - (SentimentAnalyzer.neg_count "good bad bad" : ℚ)) /
        ((SentimentAnalyzer.pos_count "good bad bad"
          + SentimentAnalyzer.neg_count "good bad bad" : ℕ) : ℚ) :=
  ⟨(C9_fallback_scoring "   ").2.2 (by decide),
   (C9_fallback_scoring "good bad bad").2.1 (by decide)⟩

/-- C10 (implicit): a valid-JSON record with no `id` field is not
malformed — it is processed successfully (the processed counter, not
the error counter, advances) — and its `external_id` is the source name
followed by an underscore and the empty native id; hence id-less records
from the same source share one `external_id` and batch-inserting two of
them stores only the first. -/
theorem C10_missing_id (v1 v2 : RawValue) (s : String) (a1 a2 : ℚ)
    (st : StreamProcessor.ProcState)
    (h1 : v1.id = none) (h2 : v2.id = none)
    (hs1 : v1.source = some s) (hs2 : v2.source = some s) :
    (StreamProcessor.runStep st (some v1) a1 0).processed_count
        = st.processed_count + 1 ∧
    (StreamProcessor.runStep st (some v1) a1 0).error_count = st.error_count ∧
    (StreamProcessor.build_processed v1 a1).external_id = s ++ "_" ∧
    (StreamProcessor.build_processed v2 a2).external_id
        = (StreamProcessor.build_processed v1 a1).external_id ∧
    Database.insert_posts_batch []
        [StreamProcessor.build_processed v1 a1,
         StreamProcessor.build_processed v2 a2]
      = (1, [StreamProcessor.build_processed v1 a1]) := by
  have he1 : (StreamProcessor.build_processed v1 a1).external_id = s ++ "_" := by
    simp [StreamProcessor.build_processed, h1, hs1]
  have he2 : (StreamProcessor.build_processed v2 a2).external_id = s ++ "_" := by
    simp [StreamProcessor.build_processed, h2, hs2]
  refine ⟨rfl, rfl, he1, he2.trans he1.symm, ?_⟩
  simp [Database.insert_posts_batch, Database.insert_post, he1, he2]

/-- C10 witness: two concrete id-less records from source "reddit". -/
theorem C10_missing_id_witness :
    (StreamProcessor.runStep initState (some exV1) 1 0).processed_count
        = initState.processed_count + 1 ∧
    (StreamProcessor.runStep initState (some exV1) 1 0).error_count
        = initState.error_count ∧
    (StreamProcessor.build_processed exV1 1).external_id = "reddit" ++ "_" ∧
    (StreamProcessor.build_processed exV2 1).external_id
        = (StreamProcessor.build_processed exV1 1).external_id ∧
    Database.insert_posts_batch []
        [StreamProcessor.build_processed exV1 1,
         StreamProcessor.build_processed exV2 1]
      = (1, [StreamProcessor.build_processed exV1 1]) :=
  C10_missing_id exV1 exV2 "reddit" 1 1 initState rfl rfl rfl rfl
